import Mathlib

/-!
Verification development for the medlaunch-aws-athena-pipeline repository.

The repository consists of two Python scripts that orchestrate AWS services:

* `lambda/start_ec2_on_upload.py` — an S3-notification Lambda handler that
  filters events and starts / health-waits a designated EC2 instance;
* `lambda/ec2/athena_pipeline.py` — an EC2-resident script that runs Athena
  queries, relocates the result CSV and terminates its own instance.

This file shallowly embeds those scripts.  External services (EC2, Athena,
S3, the instance metadata endpoint) are modelled as oracles supplied through
explicit world structures, and every service request the scripts issue is
recorded in an explicit call trace.  Wall-clock time in the polling loops is
idealised: service calls are instantaneous and each `time.sleep(k)` advances
the clock by exactly `k` seconds.
-/

/-! ## A model of Python values as seen by the Lambda handler

`start_ec2_on_upload.py` receives the notification event as a parsed JSON
value and accesses it dynamically (`event.get`, `rec["s3"]["object"]["key"]`).
We embed such values as a JSON-like inductive type and model the dynamic
accesses as fallible operations returning the Python exception they raise.
-/

inductive JValue where
  | null
  | bool (b : Bool)
  | num (n : Int)
  | str (s : String)
  | arr (elems : List JValue)
  | obj (fields : List (String × JValue))

/-- Association-list lookup, the embedding of a Python dict access. -/
def lookupField : List (String × JValue) → String → Option JValue
  | [], _ => none
  | (k, v) :: rest, key => if k = key then some v else lookupField rest key

/-- The kinds of Python exception the handler body can raise. -/
inductive PyErr where
  | attributeError
  | keyError
  | typeError
deriving DecidableEq

/-- Outcome of one iteration of the record loop in `_should_process`:
the iteration returns `True` from the function, falls through to the next
record, or raises an exception. -/
inductive StepRes where
  | found
  | next
  | err (e : PyErr)
deriving DecidableEq

/-- The Python comparison `rec.get("eventSource") == "aws:s3"`: only the
string value `aws:s3` compares equal; any other value (including a missing
key, i.e. `None`) compares unequal without raising. -/
def eventSourceIsS3 : Option JValue → Bool
  | some (JValue.str s) => s = "aws:s3"
  | _ => false

/-- The qualifying test from `_should_process` (source lines 15-19), embedded
per record.  A record qualifies when its `eventSource` equals `aws:s3` and
`rec["s3"]["object"]["key"]` is a string that starts with `raw/` and whose
lowercased form ends with `.json`.  Every dynamic access that would raise in
Python is mapped to `StepRes.err`:

* `rec.get(...)` on a non-dict raises `AttributeError`;
* indexing a dict without the key raises `KeyError`;
* indexing a non-dict raises `TypeError`;
* `.startswith` on a non-string key raises `AttributeError`.

Python string methods are embedded on the character list of the string. -/
def scanStep (rec : JValue) : StepRes :=
  match rec with
  | JValue.obj fields =>
    if eventSourceIsS3 (lookupField fields "eventSource") then
      match lookupField fields "s3" with
      | some (JValue.obj s3f) =>
        match lookupField s3f "object" with
        | some (JValue.obj objf) =>
          match lookupField objf "key" with
          | some (JValue.str key) =>
            if List.isPrefixOf "raw/".data key.data
                && List.isSuffixOf ".json".data (key.data.map Char.toLower) then
              StepRes.found
            else
              StepRes.next
          | some _ => StepRes.err PyErr.attributeError
          | none => StepRes.err PyErr.keyError
        | some _ => StepRes.err PyErr.typeError
        | none => StepRes.err PyErr.keyError
      | some _ => StepRes.err PyErr.typeError
      | none => StepRes.err PyErr.keyError
    else StepRes.next
  | _ => StepRes.err PyErr.attributeError

/-- `event.get("Records", [])` followed by iteration (source line 15).
A missing key defaults to the empty list; iterating a string yields its
characters as one-character strings; iterating a dict yields its keys;
iterating any other non-list value raises `TypeError`; `.get` on a non-dict
raises `AttributeError`. -/
def recordsOf (event : JValue) : Except PyErr (List JValue) :=
  match event with
  | JValue.obj fields =>
    match lookupField fields "Records" with
    | none => Except.ok []
    | some (JValue.arr rs) => Except.ok rs
    | some (JValue.str s) => Except.ok (s.data.map (fun c => JValue.str (String.singleton c)))
    | some (JValue.obj fs) => Except.ok (fs.map (fun kv => JValue.str kv.1))
    | some _ => Except.error PyErr.typeError
  | _ => Except.error PyErr.attributeError

/-- The record loop of `_should_process`: first qualifying record returns
`True`, an exception aborts the loop, exhaustion returns `False`. -/
def scanRecords : List JValue → Except PyErr Bool
  | [] => Except.ok false
  | r :: rest =>
    match scanStep r with
    | StepRes.found => Except.ok true
    | StepRes.next => scanRecords rest
    | StepRes.err e => Except.error e

/-- The body of the `try:` block in `_should_process` (source lines 14-20). -/
def should_process_body (event : JValue) : Except PyErr Bool :=
  match recordsOf event with
  | Except.ok rs => scanRecords rs
  | Except.error e => Except.error e

/-- `_should_process` (source lines 12-22): the `try/except Exception`
wrapper turns any exception from the body into the fall-through `return
False`. -/
def should_process (event : JValue) : Bool :=
  match should_process_body event with
  | Except.ok b => b
  | Except.error _ => false

/-- Whether some record of the event passes the qualifying test, with the
records extracted exactly as the handler extracts them. -/
def hasQualifyingRecord (event : JValue) : Bool :=
  match recordsOf event with
  | Except.ok rs => rs.any (fun r => scanStep r == StepRes.found)
  | Except.error _ => false

/-! ## The Lambda handler

The EC2 service is an external collaborator; we model the state it reports
and the health-check answers it gives as an oracle structure, and record
every request the handler issues. -/

/-- Oracle for the EC2 service as seen by `lambda_handler`:
`instanceState` is the `State.Name` reported by `describe_instances`, and
`statusOk n` is the answer of the n-th health-status poll made by the
`instance_status_ok` waiter. -/
structure Ec2World where
  instanceState : String
  statusOk : Nat → Bool

/-- EC2 requests issued by the handler.  `statusPoll iid t` is one
health-check poll by the waiter at elapsed time `t` seconds. -/
inductive Ec2Call where
  | describeInstances (iid : String)
  | startInstances (iid : String)
  | statusPoll (iid : String) (t : Nat)
deriving DecidableEq

/-- The structured value the handler returns on success, embedding the
Python dicts `\x7b"ok": True, "skipped": True\x7d` and
`\x7b"ok": True, "instance": INSTANCE_ID\x7d`. -/
structure HandlerResponse where
  ok : Bool
  skipped : Option Bool
  instanceId : Option String
deriving DecidableEq

/-- Modelled from the spec: the blocking wait-until-healthy operation of the
compute service (the `instance_status_ok` waiter is SDK code outside this
repository; section 6 of the spec documents it as polling at a configurable
interval with a configurable attempt ceiling).  `waiterRun iid ok delay fuel
n` performs up to `fuel` polls starting at attempt index `n`, polling `delay`
seconds apart, and returns whether a poll reported healthy together with the
polls issued. -/
def waiterRun (iid : String) (ok : Nat → Bool) (delay : Nat) :
    Nat → Nat → Bool × List Ec2Call
  | 0, _ => (false, [])
  | fuel + 1, n =>
    if ok n then
      (true, [Ec2Call.statusPoll iid (delay * n)])
    else
      let r := waiterRun iid ok delay fuel (n + 1)
      (r.1, Ec2Call.statusPoll iid (delay * n) :: r.2)

/-- Modelled from the spec: the error the waiter raises when the attempt
ceiling is exceeded; the handler propagates it for the instance it waited
on. -/
def waiter_error_msg (iid : String) : String :=
  "Waiter InstanceStatusOk failed on instance " ++ iid ++ ": max attempts exceeded"

/-- `lambda_handler` (source lines 24-48).  `instanceId` is the
`INSTANCE_ID` environment variable (`none` when unset).  Returns the
handler result (success value or propagated error) together with the list
of EC2 requests issued, in order.  The `WaiterConfig` of the source fixes
`Delay` 10 and `MaxAttempts` 30.  Service errors raised by
`describe_instances` / `start_instances` are re-raised by the source after
logging; the oracle models the successful responses the claims quantify
over. -/
def lambda_handler (instanceId : Option String) (w : Ec2World) (event : JValue) :
    Except String HandlerResponse × List Ec2Call :=
  match instanceId with
  | none => (Except.error "Missing env var INSTANCE_ID (your EC2 runner id)", [])
  | some iid =>
    if should_process event then
      let startCalls :=
        if w.instanceState = "stopped" ∨ w.instanceState = "stopping" then
          [Ec2Call.startInstances iid]
        else []
      let wr := waiterRun iid w.statusOk 10 30 0
      if wr.1 then
        (Except.ok ⟨true, none, some iid⟩,
          Ec2Call.describeInstances iid :: startCalls ++ wr.2)
      else
        (Except.error (waiter_error_msg iid),
          Ec2Call.describeInstances iid :: startCalls ++ wr.2)
    else
      (Except.ok ⟨true, some true, none⟩, [])

/-! ## The Athena pipeline (`lambda/ec2/athena_pipeline.py`)

The Athena, S3 and EC2 services and the metadata endpoint are modelled as
oracles; every request `main` issues is recorded in order.  The polling loop
`wait_for_query` is embedded with the idealised clock: poll `n` happens at
elapsed time `2 * n` seconds (the loop sleeps 2 seconds between polls). -/

/-- The status payload returned by `get_query_execution`, restricted to the
fields the script reads. -/
structure QStatus where
  state : String
  stateChangeReason : Option String
deriving DecidableEq

/-- `res["QueryExecution"]["Status"].get("StateChangeReason", "Unknown")`. -/
def orUnknown : Option String → String
  | some r => r
  | none => "Unknown"

/-- Membership test `state in ("SUCCEEDED", "FAILED", "CANCELLED")`. -/
def isTerminalState (s : String) : Bool :=
  s = "SUCCEEDED" || s = "FAILED" || s = "CANCELLED"

/-- The two kinds of error `wait_for_query` raises: `RuntimeError` for a
failed or cancelled query, `TimeoutError` for exceeding the wall-clock
bound. -/
inductive QueryError where
  | runtime (msg : String)
  | timedOut (msg : String)
deriving DecidableEq

/-- The loop of `wait_for_query` (source lines 62-74), starting at poll
index `n`.  Poll `n` observes `poll n`; a terminal state exits the loop
(success payload or `RuntimeError` carrying the query id and reason); the
elapsed time `2 * n > timeout_sec` check then raises `TimeoutError`;
otherwise the loop sleeps 2 seconds and continues.  Returns the result
together with the exit poll index. -/
def waitFrom (poll : Nat → QStatus) (qid : String) (timeout_sec : Nat) (n : Nat) :
    Except QueryError QStatus × Nat :=
  let res := poll n
  if isTerminalState res.state then
    if res.state = "SUCCEEDED" then
      (Except.ok res, n)
    else
      (Except.error (QueryError.runtime
        ("Athena query " ++ qid ++ " " ++ res.state ++ ": " ++ orUnknown res.stateChangeReason)), n)
  else if h : timeout_sec < 2 * n then
    (Except.error (QueryError.timedOut ("Athena query " ++ qid ++ " timed out")), n)
  else
    waitFrom poll qid timeout_sec (n + 1)
termination_by timeout_sec + 1 - 2 * n
decreasing_by omega

/-- `wait_for_query` (source lines 62-74): run the polling loop from poll
index 0.  The source signature defaults `timeout_sec` to 300; the default is
applied explicitly at every call site below. -/
def wait_for_query (poll : Nat → QStatus) (qid : String) (timeout_sec : Nat) :
    Except QueryError QStatus × Nat :=
  waitFrom poll qid timeout_sec 0

/-- Configuration surface of the pipeline (source lines 12-20), resolved
values after environment lookup. -/
structure Config where
  region : String
  bucket : String
  rawPrefixVal : String
  athenaOutput : String
  prodPrefixVal : String
  database : String
  table : String
  workgroup : String
  catalog : String
deriving DecidableEq

/-- The configuration with every environment variable unset except `BUCKET`
(source lines 12-20): `ATHENA_OUTPUT` then defaults to
`s3://<bucket>/athena-results/`. -/
def defaultConfig (bucket : String) : Config :=
  ⟨"us-east-1", bucket, "raw/", "s3://" ++ bucket ++ "/athena-results/",
    "output/prod/", "healthcare_db", "facility_data", "primary", "AwsDataCatalog"⟩

/-- A single-quote character, written via its code point. -/
def sglq : String := String.singleton (Char.ofNat 39)

/-- `CREATE_DB_SQL` (source line 23). -/
def CREATE_DB_SQL (cfg : Config) : String :=
  "CREATE DATABASE IF NOT EXISTS " ++ cfg.database ++ ";"

/-- `CREATE_TABLE_SQL` (source lines 26-43), the f-string rendered with the
configured database, table, bucket and raw prefix. -/
def CREATE_TABLE_SQL (cfg : Config) : String :=
  "\nCREATE EXTERNAL TABLE IF NOT EXISTS " ++ cfg.database ++ "." ++ cfg.table ++ " (\n" ++
  "  facility_id string,\n" ++
  "  facility_name string,\n" ++
  "  location struct<\n" ++
  "    address:string,\n" ++
  "    city:string,\n" ++
  "    state:string,\n" ++
  "    zip:string>,\n" ++
  "  employee_count int,\n" ++
  "  services array<string>,\n" ++
  "  labs array<struct<lab_name:string, certifications:array<string>>>,\n" ++
  "  accreditations array<struct<accreditation_body:string, accreditation_id:string, valid_until:string>>\n" ++
  ")\n" ++
  "ROW FORMAT SERDE " ++ sglq ++ "org.openx.data.jsonserde.JsonSerDe" ++ sglq ++ "\n" ++
  "WITH SERDEPROPERTIES (" ++ sglq ++ "ignore.malformed.json" ++ sglq ++ "=" ++ sglq ++ "true" ++ sglq ++ ")\n" ++
  "LOCATION " ++ sglq ++ "s3://" ++ cfg.bucket ++ "/" ++ cfg.rawPrefixVal ++ sglq ++ "\n" ++
  "TBLPROPERTIES (" ++ sglq ++ "has_encrypted_data" ++ sglq ++ "=" ++ sglq ++ "false" ++ sglq ++ ");\n"

/-- `STAGE3_SQL` (source lines 46-53). -/
def STAGE3_SQL (cfg : Config) : String :=
  "\nSELECT\n" ++
  "  location.state AS state,\n" ++
  "  COUNT(1)        AS facilities\n" ++
  "FROM " ++ cfg.database ++ "." ++ cfg.table ++ "\n" ++
  "GROUP BY location.state\n" ++
  "ORDER BY facilities DESC;\n"

/-- Service requests issued by the pipeline.  `deleteObject` is part of the
object-store API surface and is never issued by the pipeline: the result
relocation is a copy, not a move. -/
inductive PipeCall where
  | startQueryExecution (sql : String) (database : Option String)
      (outputLocation workgroup catalog : String)
  | getQueryExecution (qid : String)
  | copyObject (bucket sourceBucket sourceKey key : String)
  | deleteObject (bucket key : String)
  | terminateInstances (iid : String)
deriving DecidableEq

/-- Components of a UTC wall-clock time, as produced by
`datetime.utcnow()`. -/
structure UTCTime where
  year : Nat
  month : Nat
  day : Nat
  hour : Nat
  minute : Nat
  second : Nat

/-- Oracle for the external services seen by the pipeline: `qidOf k` is the
execution id Athena hands back for the k-th submitted query, `pollQ qid n`
the status payload of the n-th `get_query_execution` poll for `qid`, `now`
the UTC time at the timestamp computation, `metadata` the result of the
instance-id discovery over the metadata endpoint, and `terminateFails`
whether the `terminate_instances` request raises. -/
structure PipelineWorld where
  qidOf : Nat → String
  pollQ : String → Nat → QStatus
  now : UTCTime
  metadata : Except String String
  terminateFails : Bool

/-- The decimal digit character for `n % 10`. -/
def digitChar : Nat → Char
  | 0 => '0'
  | 1 => '1'
  | 2 => '2'
  | 3 => '3'
  | 4 => '4'
  | 5 => '5'
  | 6 => '6'
  | 7 => '7'
  | 8 => '8'
  | _ => '9'

/-- Two-digit zero-padded rendering of `n % 100`. -/
def fmt2 (n : Nat) : List Char := [digitChar (n / 10 % 10), digitChar (n % 10)]

/-- Four-digit zero-padded rendering of `n % 10000`. -/
def fmt4 (n : Nat) : List Char :=
  [digitChar (n / 1000 % 10), digitChar (n / 100 % 10), digitChar (n / 10 % 10), digitChar (n % 10)]

/-- Modelled from the platform library:
`dt.datetime.utcnow().strftime("%Y%m%d_%H%M%S")` (source line 128) applied
to the UTC time supplied by the world; digit extraction coincides with
strftime zero-padding for four-digit years. -/
def utcTimestamp (t : UTCTime) : String :=
  String.mk (fmt4 t.year ++ fmt2 t.month ++ fmt2 t.day ++ ['_'] ++
    fmt2 t.hour ++ fmt2 t.minute ++ fmt2 t.second)

/-- Whether a string matches `YYYYMMDD_HHMMSS`: fifteen characters, all
decimal digits except an underscore at index 8. -/
def isTsFormat (s : String) : Bool :=
  match s.data with
  | [y1, y2, y3, y4, mo1, mo2, d1, d2, u, h1, h2, mi1, mi2, s1, s2] =>
    y1.isDigit && y2.isDigit && y3.isDigit && y4.isDigit &&
    mo1.isDigit && mo2.isDigit && d1.isDigit && d2.isDigit &&
    u = '_' &&
    h1.isDigit && h2.isDigit && mi1.isDigit && mi2.isDigit && s1.isDigit && s2.isDigit
  | _ => false

/-- The embedding of the Python builtin `s.replace(old, new)` (all
non-overlapping occurrences, scanned left to right), on character lists,
with an explicit fuel that decreases by one while at least one character is
consumed per step, so `fuel = s.length` always suffices.  Arguments:
pattern `p` (`old`), replacement `r` (`new`), then fuel and the subject.
The `p = []` corner (never exercised below: every pattern passed has the
form `s3://...`) is rendered as the identity. -/
def pyReplaceAux (p r : List Char) : Nat → List Char → List Char
  | _, [] => []
  | 0, l => l
  | fuel + 1, c :: cs =>
    if p ≠ [] ∧ p <+: (c :: cs) then
      r ++ pyReplaceAux p r fuel (List.drop (p.length - 1) cs)
    else
      c :: pyReplaceAux p r fuel cs

/-- `s.replace(old, new)` with sufficient fuel. -/
def pyReplace (p r l : List Char) : List Char := pyReplaceAux p r l.length l

/-- The source-key computation of `copy_athena_csv_to_prod` (source line
93): `f"athena-results/\x7bqid\x7d.csv".replace(f"s3://\x7bBUCKET\x7d/", "")`. -/
def src_key (bucket qid : String) : String :=
  String.mk (pyReplace ("s3://" ++ bucket ++ "/").data []
    ("athena-results/" ++ qid ++ ".csv").data)

/-- `copy_athena_csv_to_prod` (source lines 91-98): a single server-side
copy within the bucket, from the computed source key to `dest_key`. -/
def copy_athena_csv_to_prod (cfg : Config) (qid dest_key : String) : List PipeCall :=
  [PipeCall.copyObject cfg.bucket cfg.bucket (src_key cfg.bucket qid) dest_key]

/-- `terminate_self` (source lines 100-109): discover the own instance id
from the metadata endpoint and request termination; any exception from
either step is caught and logged as a warning.  Returns the EC2 requests
issued and the warnings printed. -/
def terminate_self (w : PipelineWorld) : List PipeCall × List String :=
  match w.metadata with
  | Except.error e => ([], ["[WARN] Could not terminate instance automatically: " ++ e])
  | Except.ok iid =>
    if w.terminateFails then
      ([PipeCall.terminateInstances iid],
        ["[WARN] Could not terminate instance automatically: terminate_instances failed"])
    else
      ([PipeCall.terminateInstances iid], [])

/-- `run_query` (source lines 76-89): submit the query text with the
configured output location, workgroup and catalog (and the optional
database context), then `wait_for_query(qid)` with the default timeout of
300 seconds.  `k` numbers the submission so the world can hand back its
execution id.  Records the submission and one `get_query_execution` request
per poll the wait loop made. -/
def run_query (cfg : Config) (w : PipelineWorld) (k : Nat) (sql : String)
    (database : Option String) : Except QueryError String × List PipeCall :=
  let qid := w.qidOf k
  let r := wait_for_query (w.pollQ qid) qid 300
  let calls := PipeCall.startQueryExecution sql database cfg.athenaOutput cfg.workgroup cfg.catalog ::
    (List.range (r.2 + 1)).map (fun _ => PipeCall.getQueryExecution qid)
  match r.1 with
  | Except.ok _ => (Except.ok qid, calls)
  | Except.error e => (Except.error e, calls)

/-- Errors that abort `main`: the configuration sentinel check and any
query failure or timeout. -/
inductive PipelineError where
  | configError (msg : String)
  | queryError (e : QueryError)
deriving DecidableEq

/-- `main` of the pipeline script (source lines 111-136); named `pipeline_main` here because Lean reserves the name `main`: sentinel check, three queries, result
relocation with the timestamped destination key, then best-effort
self-termination.  Returns the outcome, the service requests issued in
order, and the warnings printed. -/
def pipeline_main (cfg : Config) (w : PipelineWorld) :
    Except PipelineError Unit × List PipeCall × List String :=
  if cfg.bucket = "YOUR_S3_BUCKET" then
    (Except.error (PipelineError.configError
      "Set BUCKET env var (or hardcode your bucket name) before running."), [], [])
  else
    match run_query cfg w 0 (CREATE_DB_SQL cfg) none with
    | (Except.error e, c1) => (Except.error (PipelineError.queryError e), c1, [])
    | (Except.ok _, c1) =>
      match run_query cfg w 1 (CREATE_TABLE_SQL cfg) (some cfg.database) with
      | (Except.error e, c2) => (Except.error (PipelineError.queryError e), c1 ++ c2, [])
      | (Except.ok _, c2) =>
        match run_query cfg w 2 (STAGE3_SQL cfg) (some cfg.database) with
        | (Except.error e, c3) => (Except.error (PipelineError.queryError e), c1 ++ c2 ++ c3, [])
        | (Except.ok qid, c3) =>
          let ts := utcTimestamp w.now
          let dest_key := cfg.prodPrefixVal ++ "state_counts_" ++ ts ++ ".csv"
          let copyCalls := copy_athena_csv_to_prod cfg qid dest_key
          let tr := terminate_self w
          (Except.ok (), c1 ++ c2 ++ c3 ++ copyCalls ++ tr.1, tr.2)

/-! ## Supporting definitions for the theorems -/

/-- Whether a record-loop iteration raises. -/
def stepRaises : StepRes → Bool
  | StepRes.err _ => true
  | _ => false

/-- Recognises a start request in the handler trace. -/
def isStartCall : Ec2Call → Bool
  | Ec2Call.startInstances _ => true
  | _ => false

/-- Recognises a health-status poll in the handler trace. -/
def isPollCall : Ec2Call → Bool
  | Ec2Call.statusPoll _ _ => true
  | _ => false

/-- A well-formed qualifying record: storage-put tag, key under `raw/` with
a `.json` suffix. -/
def qualifyingRecord : JValue :=
  JValue.obj [("eventSource", JValue.str "aws:s3"),
    ("s3", JValue.obj [("object", JValue.obj [("key", JValue.str "raw/data.json")])])]

/-- An event holding exactly one qualifying record. -/
def qualifyingEvent : JValue := JValue.obj [("Records", JValue.arr [qualifyingRecord])]

/-- A record tagged `aws:s3` with no `s3` field: inspecting it raises
`KeyError`. -/
def malformedRecord : JValue := JValue.obj [("eventSource", JValue.str "aws:s3")]

/-- An event whose first record raises during inspection and whose second
record qualifies. -/
def mixedEvent : JValue :=
  JValue.obj [("Records", JValue.arr [malformedRecord, qualifyingRecord])]

/-! ## Lemmas about the record scan and the waiter -/

lemma scanRecords_no_found (rs : List JValue) (h : ∀ r ∈ rs, scanStep r ≠ StepRes.found) :
    scanRecords rs = Except.ok false ∨ ∃ e, scanRecords rs = Except.error e := by
  induction rs with
  | nil => left; rfl
  | cons r rest ih =>
    have hr := h r (by simp)
    cases hstep : scanStep r with
    | found => exact absurd hstep hr
    | next =>
      have := ih (fun x hx => h x (by simp [hx]))
      simpa [scanRecords, hstep] using this
    | err e => exact Or.inr ⟨e, by simp [scanRecords, hstep]⟩

lemma should_process_eq_false_of_no_qual (event : JValue)
    (h : hasQualifyingRecord event = false) : should_process event = false := by
  unfold hasQualifyingRecord at h
  unfold should_process should_process_body
  cases hrec : recordsOf event with
  | error e => simp
  | ok rs =>
    rw [hrec] at h
    have hall : ∀ r ∈ rs, scanStep r ≠ StepRes.found := by
      intro r hr hEq
      have := List.any_eq_false.mp h r hr
      simp [hEq] at this
    rcases scanRecords_no_found rs hall with h1 | ⟨e, h2⟩
    · simp [h1]
    · simp [h2]

lemma scanRecords_found_at (rs : List JValue) (i : Nat) (hi : i < rs.length)
    (hq : scanStep (rs.get ⟨i, hi⟩) = StepRes.found)
    (hsafe : ∀ j (hj : j < i), stepRaises (scanStep (rs.get ⟨j, Nat.lt_trans hj hi⟩)) = false) :
    scanRecords rs = Except.ok true := by
  induction rs generalizing i with
  | nil => exact absurd hi (Nat.not_lt_zero i)
  | cons r rest ih =>
    cases i with
    | zero =>
      simp only [List.get] at hq
      simp [scanRecords, hq]
    | succ i' =>
      have hsafe0 := hsafe 0 (Nat.succ_pos i')
      simp only [List.get] at hsafe0
      cases hstep : scanStep r with
      | found => simp [scanRecords, hstep]
      | next =>
        have hi' : i' < rest.length := Nat.lt_of_succ_lt_succ hi
        have hq' : scanStep (rest.get ⟨i', hi'⟩) = StepRes.found := by
          simpa [List.get] using hq
        have hsafe' : ∀ j (hj : j < i'),
            stepRaises (scanStep (rest.get ⟨j, Nat.lt_trans hj hi'⟩)) = false := by
          intro j hj
          have := hsafe (j + 1) (Nat.succ_lt_succ hj)
          simpa [List.get] using this
        simpa [scanRecords, hstep] using ih i' hi' hq' hsafe'
      | err e => rw [hstep] at hsafe0; simp [stepRaises] at hsafe0

lemma waiterRun_no_start (iid : String) (ok : Nat → Bool) (delay : Nat) :
    ∀ fuel n, List.countP isStartCall (waiterRun iid ok delay fuel n).2 = 0 := by
  intro fuel
  induction fuel with
  | zero => intro n; rfl
  | succ f ih =>
    intro n
    by_cases h : ok n <;>
      simp [waiterRun, h, List.countP_cons, isStartCall, ih (n + 1)]

lemma waiterRun_polls_le (iid : String) (ok : Nat → Bool) (delay : Nat) :
    ∀ fuel n, (waiterRun iid ok delay fuel n).2.length ≤ fuel := by
  intro fuel
  induction fuel with
  | zero => intro n; simp [waiterRun]
  | succ f ih =>
    intro n
    by_cases h : ok n
    · simp [waiterRun, h]
    · simp only [waiterRun, h, Bool.false_eq_true, if_false, List.length_cons]
      have := ih (n + 1)
      omega

lemma waiterRun_all_unhealthy (iid : String) (ok : Nat → Bool) (delay : Nat) :
    ∀ fuel n, (∀ m, n ≤ m → m < n + fuel → ok m = false) →
      waiterRun iid ok delay fuel n =
        (false, (List.range fuel).map (fun k => Ec2Call.statusPoll iid (delay * (n + k)))) := by
  intro fuel
  induction fuel with
  | zero => intro n _; rfl
  | succ f ih =>
    intro n hall
    have h0 : ok n = false := hall n (Nat.le_refl n) (by omega)
    have hrest := ih (n + 1) (fun m hm hm2 => hall m (by omega) (by omega))
    simp only [waiterRun, h0, Bool.false_eq_true, if_false, hrest]
    congr 1
    rw [List.range_succ_eq_map]
    simp only [List.map_cons, List.map_map]
    congr 1
    all_goals try simp
    all_goals intro a ha
    all_goals exact Or.inl (by omega)

/-! ## Claims about the Lambda handler -/

/-- Claim C8: the event-filtering predicate is total on arbitrary event
values: whenever the body of the filter raises on a malformed shape, the
handler-level `_should_process` returns false (not actionable) instead of
propagating the exception, and on a non-raising body it returns the body
verdict. -/
theorem should_process_catches_all (event : JValue) :
    (∀ e, should_process_body event = Except.error e → should_process event = false) ∧
    (∀ b, should_process_body event = Except.ok b → should_process event = b) := by
  unfold should_process
  constructor
  · intro e he
    rw [he]
  · intro b hb
    rw [hb]

/-- Witness for claim C8 at a malformed (non-dict) event value. -/
theorem should_process_catches_all_witness :
    should_process (JValue.num 3) = false :=
  (should_process_catches_all (JValue.num 3)).1 PyErr.attributeError rfl

/-- Claim C3: with the instance identifier configured, an event with no
qualifying record makes the handler return ok-and-skipped and issue no EC2
request at all. -/
theorem handler_skips_without_qualifying_record (iid : String) (w : Ec2World) (event : JValue)
    (h : hasQualifyingRecord event = false) :
    lambda_handler (some iid) w event = (Except.ok ⟨true, some true, none⟩, []) := by
  unfold lambda_handler
  rw [should_process_eq_false_of_no_qual event h]
  simp

/-- Witness for claim C3 at an event with an empty record list. -/
theorem handler_skips_without_qualifying_record_witness :
    lambda_handler (some "i-0abc") ⟨"running", fun _ => true⟩
      (JValue.obj [("Records", JValue.arr [])]) =
      (Except.ok ⟨true, some true, none⟩, []) :=
  handler_skips_without_qualifying_record "i-0abc" ⟨"running", fun _ => true⟩
    (JValue.obj [("Records", JValue.arr [])]) rfl

/-- Claim C4: on an actionable event, exactly one start request is issued
when the observed instance state is `stopped` or `stopping`, and none is
issued for any other observed state. -/
theorem start_request_iff_stopped_or_stopping (iid : String) (w : Ec2World) (event : JValue)
    (h : should_process event = true) :
    List.countP isStartCall (lambda_handler (some iid) w event).2 =
      (if w.instanceState = "stopped" ∨ w.instanceState = "stopping" then 1 else 0) := by
  have hns := waiterRun_no_start iid w.statusOk 10 30 0
  by_cases hst : w.instanceState = "stopped" ∨ w.instanceState = "stopping" <;>
    [rw [if_pos hst]; rw [if_neg hst]] <;>
    simp only [lambda_handler, h, if_true] <;>
    cases hwr : (waiterRun iid w.statusOk 10 30 0).1 <;>
    simp [hst, hwr, List.countP_cons, List.countP_append, isStartCall, hns]

/-- Witness for claim C4: a stopped instance and a qualifying event yield
exactly one start request. -/
theorem start_request_iff_stopped_or_stopping_witness :
    List.countP isStartCall
      (lambda_handler (some "i-0abc") ⟨"stopped", fun _ => true⟩ qualifyingEvent).2 = 1 := by
  have h := start_request_iff_stopped_or_stopping "i-0abc" ⟨"stopped", fun _ => true⟩
    qualifyingEvent rfl
  simpa using h

/-- Claim C9: on an actionable event the health wait issues at most 30
status polls; the polls are spaced 10 seconds apart (the source fixes
`WaiterConfig` Delay 10 and MaxAttempts 30, a 300-second ceiling); and if
no poll within the ceiling reports healthy, the handler fails with an error
naming the instance id, propagated as the handler result. -/
theorem health_wait_attempt_ceiling (iid : String) (w : Ec2World) (event : JValue)
    (h : should_process event = true) :
    List.countP isPollCall (lambda_handler (some iid) w event).2 ≤ 30 ∧
    ((∀ n, n < 30 → w.statusOk n = false) →
      (lambda_handler (some iid) w event).1 = Except.error (waiter_error_msg iid) ∧
      List.filter isPollCall (lambda_handler (some iid) w event).2 =
        (List.range 30).map (fun k => Ec2Call.statusPoll iid (10 * k))) := by
  constructor
  · have hlen := waiterRun_polls_le iid w.statusOk 10 30 0
    have hcount : List.countP isPollCall (waiterRun iid w.statusOk 10 30 0).2 ≤ 30 :=
      le_trans (List.countP_le_length _) hlen
    by_cases hst : w.instanceState = "stopped" ∨ w.instanceState = "stopping" <;>
      simp only [lambda_handler, h, if_true] <;>
      cases hwr : (waiterRun iid w.statusOk 10 30 0).1 <;>
      simp [hst, hwr, List.countP_cons, List.countP_append, isPollCall, isStartCall] <;>
      omega
  · intro hfail
    have hwr := waiterRun_all_unhealthy iid w.statusOk 10 30 0
      (fun m hm1 hm2 => hfail m (by omega))
    have hmem : ∀ a ∈ (List.range 30).map (fun k => Ec2Call.statusPoll iid (10 * k)),
        isPollCall a = true := by
      intro a ha
      rcases List.mem_map.mp ha with ⟨k, _, rfl⟩
      rfl
    constructor
    · by_cases hst : w.instanceState = "stopped" ∨ w.instanceState = "stopping" <;>
        simp [lambda_handler, h, hst, hwr]
    · by_cases hst : w.instanceState = "stopped" ∨ w.instanceState = "stopping" <;>
        simp only [lambda_handler, h, if_true, hst, hwr, if_false] <;>
        simp [List.filter_cons, List.filter_append, isPollCall, isStartCall,
          List.filter_eq_self.mpr hmem]

/-- Witness for claim C9: with a never-healthy instance the handler fails
with the instance-naming error after exactly 30 polls, 10 seconds apart. -/
theorem health_wait_attempt_ceiling_witness :
    (lambda_handler (some "i-0abc") ⟨"running", fun _ => false⟩ qualifyingEvent).1 =
      Except.error (waiter_error_msg "i-0abc") ∧
    List.filter isPollCall
      (lambda_handler (some "i-0abc") ⟨"running", fun _ => false⟩ qualifyingEvent).2 =
      (List.range 30).map (fun k => Ec2Call.statusPoll "i-0abc" (10 * k)) :=
  (health_wait_attempt_ceiling "i-0abc" ⟨"running", fun _ => false⟩ qualifyingEvent rfl).2
    (fun _ _ => rfl)

/-- Claim C2 counterexample: an event whose first record raises during
inspection and whose second record fully qualifies is NOT processed — the
exception aborts the record scan, `_should_process` returns false, and the
handler returns ok-and-skipped without reaching the readiness check. -/
theorem mixed_event_skipped_despite_qualifying_record :
    scanStep qualifyingRecord = StepRes.found ∧
    scanStep malformedRecord = StepRes.err PyErr.keyError ∧
    should_process mixedEvent = false ∧
    lambda_handler (some "i-0abc") ⟨"stopped", fun _ => true⟩ mixedEvent =
      (Except.ok ⟨true, some true, none⟩, []) :=
  ⟨rfl, rfl, rfl, rfl⟩

/-- Claim C2 as amended: if some record at position `i` qualifies and no
record before position `i` raises during inspection, the handler proceeds
to the instance readiness check (its first EC2 request is the
describe-instances state inspection), regardless of how many records are
merely non-qualifying. -/
theorem handler_proceeds_on_first_qualifying (iid : String) (w : Ec2World)
    (fields : List (String × JValue)) (rs : List JValue) (i : Nat) (hi : i < rs.length)
    (hrec : lookupField fields "Records" = some (JValue.arr rs))
    (hq : scanStep (rs.get ⟨i, hi⟩) = StepRes.found)
    (hsafe : ∀ j (hj : j < i), stepRaises (scanStep (rs.get ⟨j, Nat.lt_trans hj hi⟩)) = false) :
    should_process (JValue.obj fields) = true ∧
    (lambda_handler (some iid) w (JValue.obj fields)).2.head? =
      some (Ec2Call.describeInstances iid) := by
  have hbody : should_process_body (JValue.obj fields) = Except.ok true := by
    simp only [should_process_body, recordsOf, hrec]
    exact scanRecords_found_at rs i hi hq hsafe
  have hsp : should_process (JValue.obj fields) = true := by
    simp [should_process, hbody]
  refine ⟨hsp, ?_⟩
  cases hwr : (waiterRun iid w.statusOk 10 30 0).1 <;>
    simp [lambda_handler, hsp, hwr]

/-- Witness for amended claim C2: one non-qualifying (but non-raising)
record before the qualifying one still leads to the readiness check. -/
theorem handler_proceeds_on_first_qualifying_witness :
    should_process (JValue.obj [("Records",
      JValue.arr [JValue.obj [("eventSource", JValue.str "aws:sns")], qualifyingRecord])]) = true ∧
    (lambda_handler (some "i-0abc") ⟨"running", fun _ => true⟩
      (JValue.obj [("Records",
        JValue.arr [JValue.obj [("eventSource", JValue.str "aws:sns")], qualifyingRecord])])).2.head? =
      some (Ec2Call.describeInstances "i-0abc") :=
  handler_proceeds_on_first_qualifying "i-0abc" ⟨"running", fun _ => true⟩
    [("Records", JValue.arr [JValue.obj [("eventSource", JValue.str "aws:sns")], qualifyingRecord])]
    [JValue.obj [("eventSource", JValue.str "aws:sns")], qualifyingRecord] 1 (by decide)
    rfl rfl (fun j hj => by
      have hj0 : j = 0 := by omega
      subst hj0
      rfl)

/-! ## Claims about the query-status polling loop -/

lemma waitFrom_step (poll : Nat → QStatus) (qid : String) (timeout_sec n : Nat)
    (hterm : isTerminalState (poll n).state = false) (htime : 2 * n ≤ timeout_sec) :
    waitFrom poll qid timeout_sec n = waitFrom poll qid timeout_sec (n + 1) := by
  conv_lhs => rw [waitFrom]
  simp [hterm, Nat.not_lt.mpr htime]

lemma waitFrom_zero_to (poll : Nat → QStatus) (qid : String) (timeout_sec N : Nat)
    (h : ∀ m, m < N → isTerminalState (poll m).state = false ∧ 2 * m ≤ timeout_sec) :
    waitFrom poll qid timeout_sec 0 = waitFrom poll qid timeout_sec N := by
  induction N with
  | zero => rfl
  | succ k ih =>
    have hk := h k (by omega)
    rw [ih (fun m hm => h m (by omega)), waitFrom_step poll qid timeout_sec k hk.1 hk.2]

lemma waitFrom_at_succeeded (poll : Nat → QStatus) (qid : String) (timeout_sec n : Nat)
    (h : (poll n).state = "SUCCEEDED") :
    waitFrom poll qid timeout_sec n = (Except.ok (poll n), n) := by
  conv_lhs => rw [waitFrom]
  simp [isTerminalState, h]

/-- Claim C1: characterisation of `wait_for_query` at the first decisive
poll.  For every poll sequence, handle id, timeout and index `N` such that
every poll before `N` was non-terminal and within the wall-clock bound
(elapsed time of poll `m` is `2 * m`: fixed 2-second intervals, with no
attempt cap), the loop reaches poll `N` and then: on `SUCCEEDED` it returns
the final status payload; on `FAILED` or `CANCELLED` it raises a
`RuntimeError` whose message carries the handle id and the provider reason
(or `Unknown` when absent); and past the timeout with no terminal state it
raises a `TimeoutError` naming the handle id. -/
theorem wait_for_query_spec (poll : Nat → QStatus) (qid : String) (timeout_sec N : Nat)
    (h : ∀ m, m < N → isTerminalState (poll m).state = false ∧ 2 * m ≤ timeout_sec) :
    ((poll N).state = "SUCCEEDED" →
      wait_for_query poll qid timeout_sec = (Except.ok (poll N), N)) ∧
    (((poll N).state = "FAILED" ∨ (poll N).state = "CANCELLED") →
      wait_for_query poll qid timeout_sec =
        (Except.error (QueryError.runtime
          ("Athena query " ++ qid ++ " " ++ (poll N).state ++ ": " ++
            orUnknown (poll N).stateChangeReason)), N)) ∧
    (isTerminalState (poll N).state = false → timeout_sec < 2 * N →
      wait_for_query poll qid timeout_sec =
        (Except.error (QueryError.timedOut ("Athena query " ++ qid ++ " timed out")), N)) := by
  unfold wait_for_query
  rw [waitFrom_zero_to poll qid timeout_sec N h]
  refine ⟨?_, ?_, ?_⟩
  · intro hsucc
    exact waitFrom_at_succeeded poll qid timeout_sec N hsucc
  · intro hfc
    conv_lhs => rw [waitFrom]
    have hterm : isTerminalState (poll N).state = true := by
      rcases hfc with hf | hc
      · simp [isTerminalState, hf]
      · simp [isTerminalState, hc]
    have hne : ¬ (poll N).state = "SUCCEEDED" := by
      rcases hfc with hf | hc
      · simp [hf]
      · simp [hc]
    simp [hterm, hne]
  · intro hterm htime
    conv_lhs => rw [waitFrom]
    simp [hterm, htime]

/-- Poll sequence for the claim C1 witness: running once, then succeeded. -/
def pollW : Nat → QStatus :=
  fun n => if n = 0 then ⟨"RUNNING", none⟩ else ⟨"SUCCEEDED", none⟩

/-- Witness for claim C1: the loop returns the succeeded payload observed
at the second poll. -/
theorem wait_for_query_spec_witness :
    wait_for_query pollW "q-123" 300 = (Except.ok ⟨"SUCCEEDED", none⟩, 1) :=
  (wait_for_query_spec pollW "q-123" 300 1
    (fun m hm => by
      have hm0 : m = 0 := by omega
      subst hm0
      exact ⟨rfl, by omega⟩)).1 rfl

/-! ## Claims about `main` of the pipeline -/

/-- Claim C5: when the configured bucket equals the placeholder sentinel,
`main` raises the configuration error before issuing any service request:
the call trace is empty (no database creation, table creation, query or
copy request). -/
theorem sentinel_bucket_aborts_before_any_call (cfg : Config) (w : PipelineWorld)
    (h : cfg.bucket = "YOUR_S3_BUCKET") :
    pipeline_main cfg w =
      (Except.error (PipelineError.configError
        "Set BUCKET env var (or hardcode your bucket name) before running."), [], []) := by
  simp [pipeline_main, h]

/-- A world whose queries succeed immediately, the self-identification over
the metadata endpoint included. -/
def trivialWorld : PipelineWorld :=
  ⟨fun _ => "qid-0", fun _ _ => ⟨"SUCCEEDED", none⟩, ⟨2025, 1, 2, 3, 4, 5⟩,
    Except.ok "i-self", false⟩

/-- Witness for claim C5 at the placeholder configuration. -/
theorem sentinel_bucket_aborts_before_any_call_witness :
    pipeline_main (defaultConfig "YOUR_S3_BUCKET") trivialWorld =
      (Except.error (PipelineError.configError
        "Set BUCKET env var (or hardcode your bucket name) before running."), [], []) :=
  sentinel_bucket_aborts_before_any_call (defaultConfig "YOUR_S3_BUCKET") trivialWorld rfl

lemma run_query_succ (cfg : Config) (w : PipelineWorld) (k : Nat) (sql : String)
    (database : Option String) (hs : ∀ q n, w.pollQ q n = ⟨"SUCCEEDED", none⟩) :
    run_query cfg w k sql database =
      (Except.ok (w.qidOf k),
        [PipeCall.startQueryExecution sql database cfg.athenaOutput cfg.workgroup cfg.catalog,
         PipeCall.getQueryExecution (w.qidOf k)]) := by
  have hw := waitFrom_at_succeeded (w.pollQ (w.qidOf k)) (w.qidOf k) 300 0 (by rw [hs])
  simp [run_query, wait_for_query, hw, List.range_succ]

lemma pipeline_main_succ (cfg : Config) (w : PipelineWorld)
    (hb : cfg.bucket ≠ "YOUR_S3_BUCKET")
    (hs : ∀ q n, w.pollQ q n = ⟨"SUCCEEDED", none⟩) :
    pipeline_main cfg w =
      (Except.ok (),
        [PipeCall.startQueryExecution (CREATE_DB_SQL cfg) none
           cfg.athenaOutput cfg.workgroup cfg.catalog,
         PipeCall.getQueryExecution (w.qidOf 0),
         PipeCall.startQueryExecution (CREATE_TABLE_SQL cfg) (some cfg.database)
           cfg.athenaOutput cfg.workgroup cfg.catalog,
         PipeCall.getQueryExecution (w.qidOf 1),
         PipeCall.startQueryExecution (STAGE3_SQL cfg) (some cfg.database)
           cfg.athenaOutput cfg.workgroup cfg.catalog,
         PipeCall.getQueryExecution (w.qidOf 2),
         PipeCall.copyObject cfg.bucket cfg.bucket (src_key cfg.bucket (w.qidOf 2))
           (cfg.prodPrefixVal ++ "state_counts_" ++ utcTimestamp w.now ++ ".csv")] ++
          (terminate_self w).1,
        (terminate_self w).2) := by
  unfold pipeline_main
  rw [if_neg hb, run_query_succ cfg w 0 _ _ hs, run_query_succ cfg w 1 _ _ hs,
    run_query_succ cfg w 2 _ _ hs]
  simp [copy_athena_csv_to_prod]

/-- Claim C7: when every query step succeeds and the self-termination step
fails (the metadata discovery raises, or the terminate request raises),
`main` still completes normally and the failure surfaces only as a logged
warning. -/
theorem termination_failure_not_fatal (cfg : Config) (w : PipelineWorld)
    (hb : cfg.bucket ≠ "YOUR_S3_BUCKET")
    (hs : ∀ q n, w.pollQ q n = ⟨"SUCCEEDED", none⟩)
    (hfail : (∃ e, w.metadata = Except.error e) ∨ w.terminateFails = true) :
    (pipeline_main cfg w).1 = Except.ok () ∧ (pipeline_main cfg w).2.2 ≠ [] := by
  rw [pipeline_main_succ cfg w hb hs]
  refine ⟨rfl, ?_⟩
  rcases hfail with ⟨e, he⟩ | ht
  · simp [terminate_self, he]
  · cases hm : w.metadata <;> simp [terminate_self, hm, ht]

/-- A world whose queries succeed but whose metadata-endpoint lookup times
out. -/
def failTermWorld : PipelineWorld :=
  ⟨fun _ => "qid-0", fun _ _ => ⟨"SUCCEEDED", none⟩, ⟨2025, 1, 2, 3, 4, 5⟩,
    Except.error "metadata endpoint timed out", false⟩

/-- Witness for claim C7: a metadata-endpoint timeout leaves the run
successful with a warning logged. -/
theorem termination_failure_not_fatal_witness :
    (pipeline_main (defaultConfig "devang-healthcare-data") failTermWorld).1 = Except.ok () ∧
    (pipeline_main (defaultConfig "devang-healthcare-data") failTermWorld).2.2 ≠ [] :=
  termination_failure_not_fatal (defaultConfig "devang-healthcare-data") failTermWorld
    (by decide) (fun _ _ => rfl) (Or.inl ⟨"metadata endpoint timed out", rfl⟩)

/-! ## The source-key computation: `replace` facts -/

lemma isInfix_append_split {α : Type} (P X Y : List α) (h : P <:+: X ++ Y) :
    P <:+: X ∨ P <:+: Y ∨
      ∃ P1 P2, P = P1 ++ P2 ∧ P1 ≠ [] ∧ P2 ≠ [] ∧ P1 <:+ X ∧ P2 <+: Y := by
  obtain ⟨s, t, hst⟩ := h
  rw [List.append_assoc] at hst
  by_cases h1 : s.length + P.length ≤ X.length
  · left
    have h0 : List.take X.length (X ++ Y) = X := List.take_left X Y
    rw [← hst, @List.take_append_eq_append_take _ s (P ++ t) X.length,
      List.take_of_length_le (show s.length ≤ X.length by omega),
      @List.take_append_eq_append_take _ P t (X.length - s.length),
      List.take_of_length_le (show P.length ≤ X.length - s.length by omega)] at h0
    exact ⟨s, List.take (X.length - s.length - P.length) t,
      by rw [List.append_assoc]; exact h0⟩
  · by_cases h2 : X.length ≤ s.length
    · right; left
      have h0 : List.drop X.length (X ++ Y) = Y := List.drop_left X Y
      rw [← hst, @List.drop_append_eq_append_drop _ s (P ++ t) X.length,
        Nat.sub_eq_zero_of_le h2, List.drop_zero] at h0
      exact ⟨List.drop X.length s, t, by rw [List.append_assoc]; exact h0⟩
    · right; right
      push_neg at h1 h2
      have hPt : P ++ t = List.drop s.length X ++ Y := by
        have h0 : List.drop s.length (s ++ (P ++ t)) = P ++ t := List.drop_left s (P ++ t)
        rw [hst, @List.drop_append_eq_append_drop _ X Y s.length,
          Nat.sub_eq_zero_of_le (le_of_lt h2), List.drop_zero] at h0
        exact h0.symm
      have hdl : (List.drop s.length X).length = X.length - s.length := List.length_drop _ _
      have hP : P = List.drop s.length X ++ List.take (P.length - (X.length - s.length)) Y := by
        have h0 : List.take P.length (P ++ t) = P := List.take_left P t
        rw [hPt, @List.take_append_eq_append_take _ (List.drop s.length X) Y P.length,
          List.take_of_length_le (show (List.drop s.length X).length ≤ P.length by
            rw [hdl]; omega), hdl] at h0
        exact h0.symm
      have hYlen : P.length - (X.length - s.length) ≤ Y.length := by
        have hl := congrArg List.length hPt
        rw [List.length_append, List.length_append, hdl] at hl
        omega
      refine ⟨List.drop s.length X, List.take (P.length - (X.length - s.length)) Y,
        hP, ?_, ?_, ?_, ?_⟩
      · intro hnil
        rw [hnil] at hdl
        simp only [List.length_nil] at hdl
        omega
      · intro hnil
        have hl := congrArg List.length hnil
        rw [List.length_take, List.length_nil] at hl
        omega
      · exact ⟨List.take s.length X, List.take_append_drop _ X⟩
      · exact ⟨List.drop (P.length - (X.length - s.length)) Y, List.take_append_drop _ Y⟩

lemma pyReplaceAux_id_of_no_occurrence (p r : List Char) :
    ∀ fuel l, ¬ p <:+: l → pyReplaceAux p r fuel l = l := by
  intro fuel
  induction fuel with
  | zero => intro l _; cases l <;> rfl
  | succ f ih =>
    intro l h
    cases l with
    | nil => rfl
    | cons c cs =>
      have hcond : ¬ (p ≠ [] ∧ p <+: (c :: cs)) := by
        rintro ⟨-, hpre⟩
        exact h hpre.isInfix
      rw [pyReplaceAux, if_neg hcond, ih cs (fun hcs => h (List.infix_cons hcs))]

lemma pyReplace_id_of_no_occurrence (p r l : List Char) (h : ¬ p <:+: l) : pyReplace p r l = l :=
  pyReplaceAux_id_of_no_occurrence p r l.length l h

lemma src_key_eq_of_no_occurrence (bucket qid : String)
    (h : ¬ (("s3://" ++ bucket ++ "/").data <:+: ("athena-results/" ++ qid ++ ".csv").data)) :
    src_key bucket qid = "athena-results/" ++ qid ++ ".csv" := by
  unfold src_key pyReplace
  rw [pyReplaceAux_id_of_no_occurrence _ _ _ _ h]

lemma s3_pattern_data (bucket : String) :
    ("s3://" ++ bucket ++ "/").data =
      's' :: '3' :: ':' :: '/' :: '/' :: (bucket.data ++ ['/']) := by
  rw [String.data_append, String.data_append]
  simp [show "s3://".data = ['s', '3', ':', '/', '/'] from rfl,
    show "/".data = ['/'] from rfl]

lemma no_occurrence_of_colon_free (bucket : String) (l : List Char) (h : (':' : Char) ∉ l) :
    ¬ (("s3://" ++ bucket ++ "/").data <:+: l) := by
  intro hinf
  apply h
  apply hinf.subset
  rw [s3_pattern_data]
  simp

lemma pattern_no_occurrence_full (bucket qid : String)
    (h : ¬ (("s3://" ++ bucket ++ "/").data <:+: qid.data)) :
    ¬ (("s3://" ++ bucket ++ "/").data <:+: ("athena-results/" ++ qid ++ ".csv").data) := by
  rw [s3_pattern_data] at h ⊢
  rw [String.data_append, String.data_append]
  intro hinf
  rcases isInfix_append_split _ _ _ hinf with hAQ | hE | ⟨P1, P2, hsplit, hP1, hP2, hsuf, hpre⟩
  · rcases isInfix_append_split _ _ _ hAQ with hA | hQ | ⟨P1, P2, hsplit, hP1, hP2, hsuf, hpre⟩
    · have h3 : ('3' : Char) ∈ 's' :: '3' :: ':' :: '/' :: '/' :: (bucket.data ++ ['/']) := by
        simp
      have hmem := hA.subset h3
      revert hmem
      decide
    · exact h hQ
    · cases P1 with
      | nil => exact hP1 rfl
      | cons a as =>
        rw [List.cons_append] at hsplit
        cases as with
        | nil =>
          injection hsplit with h1 _
          subst h1
          revert hsuf
          decide
        | cons b bs =>
          rw [List.cons_append] at hsplit
          injection hsplit with h1 h2
          injection h2 with h3 _
          subst h1
          subst h3
          have h3mem : ('3' : Char) ∈ ('s' :: '3' :: bs) := by simp
          have hmem := hsuf.subset h3mem
          revert hmem
          decide
  · have hlen := hE.length_le
    rw [show (".csv".data).length = 4 from rfl] at hlen
    simp [List.length_append] at hlen
  · have hlastP :
        (('s' :: '3' :: ':' :: '/' :: '/' :: (bucket.data ++ ['/'])) : List Char).getLast? =
          some '/' := by
      rw [show ('s' :: '3' :: ':' :: '/' :: '/' :: (bucket.data ++ ['/']) : List Char) =
        ('s' :: '3' :: ':' :: '/' :: '/' :: bucket.data) ++ ['/'] by simp]
      rw [List.getLast?_append_of_ne_nil _ (by simp)]
      rfl
    rw [hsplit, List.getLast?_append_of_ne_nil _ hP2] at hlastP
    have hmem : ('/' : Char) ∈ P2 := List.mem_of_mem_getLast? (by rw [hlastP]; rfl)
    have hmemE := hpre.subset hmem
    revert hmemE
    decide

/-- Recognises a copy request in the pipeline trace. -/
def isCopyCall : PipeCall → Bool
  | PipeCall.copyObject _ _ _ _ => true
  | _ => false

/-- Recognises a delete request in the pipeline trace. -/
def isDeleteCall : PipeCall → Bool
  | PipeCall.deleteObject _ _ => true
  | _ => false

/-- The output location carried by a query submission, if the call is
one. -/
def outputLocOf : PipeCall → Option String
  | PipeCall.startQueryExecution _ _ out _ _ => some out
  | _ => none

lemma digitChar_isDigit (n : Nat) : (digitChar n).isDigit = true := by
  rcases n with _|_|_|_|_|_|_|_|_|n <;> rfl

lemma isTsFormat_utcTimestamp (t : UTCTime) : isTsFormat (utcTimestamp t) = true := by
  simp [isTsFormat, utcTimestamp, fmt4, fmt2, digitChar_isDigit]

lemma terminate_self_no_copy (w : PipelineWorld) :
    List.filter isCopyCall (terminate_self w).1 = [] := by
  cases hm : w.metadata with
  | error e => simp [terminate_self, hm]
  | ok iid => cases ht : w.terminateFails <;> simp [terminate_self, hm, ht, isCopyCall]

lemma terminate_self_no_delete (w : PipelineWorld) :
    List.filter isDeleteCall (terminate_self w).1 = [] := by
  cases hm : w.metadata with
  | error e => simp [terminate_self, hm]
  | ok iid => cases ht : w.terminateFails <;> simp [terminate_self, hm, ht, isDeleteCall]

lemma terminate_self_no_query (w : PipelineWorld) :
    List.filterMap outputLocOf (terminate_self w).1 = [] := by
  cases hm : w.metadata with
  | error e => simp [terminate_self, hm]
  | ok iid => cases ht : w.terminateFails <;> simp [terminate_self, hm, ht, outputLocOf]

/-- Claim C6: in a completing run, the relocation call copies from the
computed source key to destination
`output/prod/state_counts_<timestamp>.csv` where the timestamp matches
`YYYYMMDD_HHMMSS`; for execution id `abc123` the source key is exactly
`athena-results/abc123.csv`; and the relocation is a copy — no delete
request is ever issued, so the source object stays in place. -/
theorem copy_keys_spec (cfg : Config) (w : PipelineWorld)
    (hb : cfg.bucket ≠ "YOUR_S3_BUCKET")
    (hp : cfg.prodPrefixVal = "output/prod/")
    (hs : ∀ q n, w.pollQ q n = ⟨"SUCCEEDED", none⟩) :
    List.filter isCopyCall (pipeline_main cfg w).2.1 =
      [PipeCall.copyObject cfg.bucket cfg.bucket (src_key cfg.bucket (w.qidOf 2))
        ("output/prod/state_counts_" ++ utcTimestamp w.now ++ ".csv")] ∧
    src_key cfg.bucket "abc123" = "athena-results/abc123.csv" ∧
    isTsFormat (utcTimestamp w.now) = true ∧
    List.filter isDeleteCall (pipeline_main cfg w).2.1 = [] := by
  rw [pipeline_main_succ cfg w hb hs]
  refine ⟨?_, ?_, isTsFormat_utcTimestamp w.now, ?_⟩
  · simp [List.filter_append, isCopyCall, terminate_self_no_copy, hp]
  · have hni := no_occurrence_of_colon_free cfg.bucket
      ("athena-results/" ++ "abc123" ++ ".csv").data (by decide)
    rw [src_key_eq_of_no_occurrence cfg.bucket "abc123" hni]
    rfl
  · simp [List.filter_append, isDeleteCall, terminate_self_no_delete]

/-- Witness for claim C6 at a concrete bucket and world. -/
theorem copy_keys_spec_witness :
    List.filter isCopyCall
      (pipeline_main (defaultConfig "devang-healthcare-data") trivialWorld).2.1 =
      [PipeCall.copyObject "devang-healthcare-data" "devang-healthcare-data"
        (src_key "devang-healthcare-data" "qid-0")
        ("output/prod/state_counts_" ++ utcTimestamp ⟨2025, 1, 2, 3, 4, 5⟩ ++ ".csv")] ∧
    src_key "devang-healthcare-data" "abc123" = "athena-results/abc123.csv" ∧
    isTsFormat (utcTimestamp ⟨2025, 1, 2, 3, 4, 5⟩) = true ∧
    List.filter isDeleteCall
      (pipeline_main (defaultConfig "devang-healthcare-data") trivialWorld).2.1 = [] :=
  copy_keys_spec (defaultConfig "devang-healthcare-data") trivialWorld
    (by decide) rfl (fun _ _ => rfl)

/-- Claim C10: the source key the copy step reads from is
`athena-results/<qid>.csv`, for every execution id not containing the
substring `s3://<bucket>/`; it does not depend on the configured
query-engine output location (two configurations agreeing on the bucket
produce identical copy requests whatever their output locations), while the
query submissions do carry the configured output location — so the two
locations can silently diverge. -/
theorem src_key_ignores_athena_output (bucket qid : String) (cfg cfg2 : Config)
    (w : PipelineWorld)
    (hq : ¬ (("s3://" ++ bucket ++ "/").data <:+: qid.data)) :
    src_key bucket qid = "athena-results/" ++ qid ++ ".csv" ∧
    (cfg.bucket = bucket → cfg2.bucket = bucket →
      ∀ q dk, copy_athena_csv_to_prod cfg q dk = copy_athena_csv_to_prod cfg2 q dk) ∧
    (cfg.bucket ≠ "YOUR_S3_BUCKET" → (∀ q n, w.pollQ q n = ⟨"SUCCEEDED", none⟩) →
      List.filterMap outputLocOf (pipeline_main cfg w).2.1 =
        [cfg.athenaOutput, cfg.athenaOutput, cfg.athenaOutput]) := by
  refine ⟨src_key_eq_of_no_occurrence bucket qid (pattern_no_occurrence_full bucket qid hq), ?_, ?_⟩
  · intro hb hb2 q dk
    unfold copy_athena_csv_to_prod
    rw [hb, hb2]
  · intro hb hs
    rw [pipeline_main_succ cfg w hb hs]
    simp [List.filterMap_append, outputLocOf, terminate_self_no_query]

/-- A configuration agreeing with the default one on everything except a
diverging query-engine output location. -/
def divergedConfig : Config :=
  ⟨"us-east-1", "devang-healthcare-data", "raw/", "s3://other-bucket/results/",
    "output/prod/", "healthcare_db", "facility_data", "primary", "AwsDataCatalog"⟩

/-- Witness for claim C10 at a concrete bucket, execution id and pair of
configurations with diverging output locations. -/
theorem src_key_ignores_athena_output_witness :
    src_key "devang-healthcare-data" "q1" = "athena-results/" ++ "q1" ++ ".csv" ∧
    copy_athena_csv_to_prod (defaultConfig "devang-healthcare-data") "q1" "dest.csv" =
      copy_athena_csv_to_prod divergedConfig "q1" "dest.csv" ∧
    List.filterMap outputLocOf
      (pipeline_main (defaultConfig "devang-healthcare-data") trivialWorld).2.1 =
      [(defaultConfig "devang-healthcare-data").athenaOutput,
       (defaultConfig "devang-healthcare-data").athenaOutput,
       (defaultConfig "devang-healthcare-data").athenaOutput] :=
  ⟨(src_key_ignores_athena_output "devang-healthcare-data" "q1"
      (defaultConfig "devang-healthcare-data") divergedConfig trivialWorld (by decide)).1,
   (src_key_ignores_athena_output "devang-healthcare-data" "q1"
      (defaultConfig "devang-healthcare-data") divergedConfig trivialWorld (by decide)).2.1
      rfl rfl "q1" "dest.csv",
   (src_key_ignores_athena_output "devang-healthcare-data" "q1"
      (defaultConfig "devang-healthcare-data") divergedConfig trivialWorld (by decide)).2.2
      (by decide) (fun _ _ => rfl)⟩
